import Mathlib

/-!
Shallow embedding of `memory-mcp.js` from vheins/mcp-memory: a stateless
stdin/stdout JSON-RPC (MCP) adapter that answers handshake and static
discovery methods locally and forwards everything else to an HTTP backend.

JSON values are modelled by the inductive `Json` (numbers as `ℚ`, which
represents every numeric literal in the program exactly).  A processed
line produces a trace of `Event`s: protocol lines written to stdout,
diagnostic lines written to stderr, and outbound HTTP POSTs.  `stdout`
lines are recorded as the `Json` value passed to `JSON.stringify`, so two
equal `Json` outputs serialize to byte-identical lines.  The results of
the two external effects the program consults — `JSON.parse` on the
inbound line and `fetch` of the backend — are supplied as explicit inputs
(`Except String Json` and `FetchOutcome`), mirroring the only information
the program extracts from them.
-/

inductive Json where
  | null
  | bool (b : Bool)
  | num (n : ℚ)
  | str (s : String)
  | arr (elems : List Json)
  | obj (fields : List (String × Json))


/-- JavaScript property access `v.key` on a parsed JSON value, as the
program uses it: `none` models `undefined` (absent field, or access on a
non-object primitive/array).  Access on `null` throws in JS; the callers
below branch on `isNull` first, mirroring where the source would throw. -/
def Json.getOpt : Json → String → Option Json
  | .obj fields, key => (fields.find? (fun f => f.1 == key)).map (fun f => f.2)
  | _, _ => none

def Json.isNull : Json → Bool
  | .null => true
  | _ => false

/-- JavaScript truthiness of a parsed JSON value. -/
def Json.truthy : Json → Bool
  | .null => false
  | .bool b => b
  | .num n => n != 0
  | .str s => !s.isEmpty
  | .arr _ => true
  | .obj _ => true

/-- JavaScript strict equality `===` between two parsed JSON values that
originate from two distinct `JSON.parse` calls (as in `data.id === id`):
primitives compare by value; objects and arrays are compared by reference
and the two sides are never the same reference here, hence `false`. -/
def jsStrictEq : Json → Json → Bool
  | .null, .null => true
  | .bool a, .bool b => a == b
  | .num a, .num b => a == b
  | .str a, .str b => a == b
  | _, _ => false

/-- `===` lifted to possibly-`undefined` operands (`none` = `undefined`);
`undefined === undefined` is `true`. -/
def jsStrictEqU : Option Json → Option Json → Bool
  | none, none => true
  | some a, some b => jsStrictEq a b
  | _, _ => false

/-- The JS expression `v && v.key` (used as `msg.params && msg.params.name`):
`undefined` stays `undefined`, a falsy value is returned unchanged, a truthy
value yields its field (or `undefined`). -/
def jsAndField (v : Option Json) (key : String) : Option Json :=
  match v with
  | none => none
  | some p => if p.truthy then p.getOpt key else some p

/-- Process environment slice the program reads. -/
structure Env where
  MCP_MEMORY_URL : Option String
  MCP_MEMORY_TOKEN : Option String


/-- One outbound `fetch` POST: target URL and the three fields of the
JSON-RPC body `{jsonrpc: "2.0", method, params, id}` it re-serializes. -/
structure NetCall where
  url : String
  method : Option Json
  params : Option Json
  id : Option Json


/-- Observable effects, in program order: a protocol line on stdout
(the value handed to `JSON.stringify`), a diagnostic line on stderr, or
an outbound HTTP POST. -/
inductive Event where
  | out (j : Json)
  | errLine (s : String)
  | net (c : NetCall)


def stdoutOf (t : List Event) : List Json :=
  t.filterMap (fun e => match e with | .out j => some j | _ => none)

def stderrOf (t : List Event) : List String :=
  t.filterMap (fun e => match e with | .errLine s => some s | _ => none)

def netOf (t : List Event) : List NetCall :=
  t.filterMap (fun e => match e with | .net c => some c | _ => none)

def DEFAULT_URL : String := "https://agent.idsolutions.id/api/v1/mcp/memory"

/-- `process.env.MCP_MEMORY_URL || DEFAULT_URL` (empty string is falsy). -/
def resolveUrl : Option String → String
  | none => DEFAULT_URL
  | some u => if u.isEmpty then DEFAULT_URL else u

/-- `!token` for `token = process.env.MCP_MEMORY_TOKEN`: unset or empty. -/
def tokenMissing : Option String → Bool
  | none => true
  | some t => t.isEmpty

/-- `JSON.stringify` drops a field whose value is `undefined`
(`{jsonrpc: "2.0", id, ...}` with `id` undefined omits `id`), while an
explicit JSON `null` id is kept. -/
def idField : Option Json → List (String × Json)
  | none => []
  | some v => [("id", v)]

def errorEnvelope (id : Option Json) (code : ℚ) (message : String) : Json :=
  .obj (("jsonrpc", .str "2.0") :: idField id ++
    [("error", .obj [("code", .num code), ("message", .str message)])])

def resultEnvelope (id : Option Json) (result : Json) : Json :=
  .obj (("jsonrpc", .str "2.0") :: idField id ++ [("result", result)])

/-- V8 TypeError message for `data.jsonrpc` when `data` is `null`. -/
def NULL_JSONRPC_READ_MSG : String :=
  "Cannot read properties of null (reading \x27jsonrpc\x27)"

/-- V8 TypeError message for `msg.method` when the parsed line is `null`. -/
def NULL_METHOD_READ_MSG : String :=
  "Cannot read properties of null (reading \x27method\x27)"

/-- Result of the one outbound `fetch` + `res.text()` + `JSON.parse(text)`
sequence, from the adapter's viewpoint: the transport threw, or a body
arrived and either failed `JSON.parse` (carrying the raw text) or parsed
to a JSON value. -/
inductive RemoteBody where
  | invalid (raw : String)
  | valid (data : Json)


inductive FetchOutcome where
  | thrown (message : String)
  | replied (body : RemoteBody)


/-- `forwardToMCP(method, params, id)` (memory-mcp.js lines 450–506):
missing-token gate, single POST, then relay/wrap/synthesize per the
response.  A parsed body of JSON `null` reaches `data.jsonrpc`, which
throws and is caught by the surrounding `catch`, yielding the −32603 arm. -/
def forwardToMCP (env : Env) (outcome : FetchOutcome)
    (method params id : Option Json) : List Event :=
  if tokenMissing env.MCP_MEMORY_TOKEN then
    [.errLine "FATAL: MCP_MEMORY_TOKEN is missing in environment",
     .out (errorEnvelope id (-32000)
       "MCP_MEMORY_TOKEN is required but missing from environment")]
  else
    let url := resolveUrl env.MCP_MEMORY_URL
    match outcome with
    | .thrown m =>
        [.net ⟨url, method, params, id⟩,
         .errLine ("Forwarding failed: " ++ m),
         .out (errorEnvelope id (-32603) ("Internal error: " ++ m))]
    | .replied (.invalid raw) =>
        [.net ⟨url, method, params, id⟩,
         .errLine ("Failed to parse remote response: " ++ raw.take 500),
         .out (errorEnvelope id (-32700) "Parse error: Invalid JSON from server")]
    | .replied (.valid data) =>
        if data.isNull then
          [.net ⟨url, method, params, id⟩,
           .errLine ("Forwarding failed: " ++ NULL_JSONRPC_READ_MSG),
           .out (errorEnvelope id (-32603)
             ("Internal error: " ++ NULL_JSONRPC_READ_MSG))]
        else if jsStrictEqU (data.getOpt "jsonrpc") (some (.str "2.0")) &&
                jsStrictEqU (data.getOpt "id") id then
          [.net ⟨url, method, params, id⟩, .out data]
        else
          [.net ⟨url, method, params, id⟩,
           .errLine "Server response missing JSON-RPC envelope",
           .out (resultEnvelope id data)]

/-! ## Static capability data (`CAPABILITIES`, memory-mcp.js lines 22–344)

The three enum vocabularies are repeated verbatim in the source at each
use site; they are bound once here and spliced in. -/

def scopeTypeEnum : List Json :=
  [.str "system", .str "organization", .str "repository", .str "user"]

def memoryTypeEnum : List Json :=
  [.str "business_rule", .str "decision_log", .str "preference",
   .str "system_constraint", .str "documentation", .str "tech_stack",
   .str "fact", .str "task", .str "architecture", .str "user_context",
   .str "convention", .str "risk"]

def statusEnum : List Json :=
  [.str "draft", .str "verified", .str "locked", .str "deprecated", .str "active"]

def capabilitiesObj : Json := .obj [
  ("resources", .obj [("list", .bool true), ("read", .bool true), ("templates", .bool true)]),
  ("tools", .obj [("list", .bool true), ("call", .bool true)]),
  ("prompts", .obj [("list", .bool true), ("get", .bool true)])]

def serverInfoObj : Json := .obj [
  ("name", .str "@vheins/memory-mcp"),
  ("version", .str "1.0.0")]

def promptsList : List Json := [
  .obj [("name", .str "memory-agent-core"),
        ("description", .str "The core behavioral contract for all agents interacting with the Memory MCP.")],
  .obj [("name", .str "memory-index-policy"),
        ("description", .str "Enforces the strict policy regarding memory index usage and content.")],
  .obj [("name", .str "tool-usage-guidelines"),
        ("description", .str "Strict guidelines on when to use (and when NOT to use) each MCP tool.")]]

def memoryWriteTool : Json := .obj [
  ("name", .str "memory-write"),
  ("description", .str "Create a new memory entry. Supports facts, preferences, and business rules."),
  ("inputSchema", .obj [
    ("type", .str "object"),
    ("properties", .obj [
      ("organization", .obj [("type", .str "string"), ("description", .str "The organization slug to which this memory belongs (e.g., \"my-org\"). Required for validation.")]),
      ("scope_type", .obj [("type", .str "string"), ("enum", .arr scopeTypeEnum), ("description", .str "The visibility scope: \"system\" for global rules, \"organization\" for team-wide knowledge, or \"user\" for private context.")]),
      ("memory_type", .obj [("type", .str "string"), ("enum", .arr memoryTypeEnum), ("description", .str "The category of the memory: \"business_rule\", \"preference\", \"fact\", \"system_constraint\", etc.")]),
      ("current_content", .obj [("type", .str "string"), ("description", .str "The actual content of the memory. Be precise and concise.")]),
      ("id", .obj [("type", .str "string"), ("format", .str "uuid"), ("description", .str "UUID of the memory to update. Leave this field empty if you are creating a NEW memory entry.")]),
      ("repository", .obj [("type", .str "string"), ("description", .str "The specific repository slug (e.g., \"frontend-repo\") if this memory is project-specific.")]),
      ("title", .obj [("type", .str "string"), ("description", .str "A concise summary of the memory content. Rule: Max 12 words, no explanation, no proper sentences.")]),
      ("status", .obj [("type", .str "string"), ("enum", .arr statusEnum), ("default", .str "draft"), ("description", .str "The lifecycle status: \"draft\" (default), \"active\" (verified), or \"archived\".")]),
      ("importance", .obj [("type", .str "integer"), ("minimum", .num 1), ("maximum", .num 10), ("default", .num 1), ("description", .str "Set the priority level (1-10). Default is 1. Higher values are returned first in searches.")]),
      ("metadata", .obj [("type", .str "object"), ("description", .str "Arbitrary JSON key-value pairs. Rule: Max 5 keys, flat key-values only, no nested objects, no long text.")])]),
    ("required", .arr [.str "organization", .str "scope_type", .str "memory_type", .str "current_content"])])]

def memoryUpdateTool : Json := .obj [
  ("name", .str "memory-update"),
  ("description", .str "Update an existing memory entry by its UUID."),
  ("inputSchema", .obj [
    ("type", .str "object"),
    ("properties", .obj [
      ("id", .obj [("type", .str "string"), ("format", .str "uuid"), ("description", .str "The unique UUID of the memory entry you wish to update.")]),
      ("title", .obj [("type", .str "string"), ("description", .str "A new summary title. Rule: Max 12 words, no explanation.")]),
      ("current_content", .obj [("type", .str "string"), ("description", .str "The new text content. Replaces the existing content entirely.")]),
      ("status", .obj [("type", .str "string"), ("enum", .arr statusEnum), ("description", .str "Update the status (e.g., promote \"draft\" to \"active\" after verification).")]),
      ("scope_type", .obj [("type", .str "string"), ("enum", .arr scopeTypeEnum), ("description", .str "Change the visibility scope (e.g., move from \"user\" to \"organization\" for shared knowledge).")]),
      ("memory_type", .obj [("type", .str "string"), ("enum", .arr memoryTypeEnum), ("description", .str "Reclassify the memory type (e.g., from \"fact\" to \"business_rule\").")]),
      ("importance", .obj [("type", .str "integer"), ("minimum", .num 1), ("maximum", .num 10), ("description", .str "Adjust the priority level (1-10). Higher importance boosts vector search ranking.")]),
      ("metadata", .obj [("type", .str "object"), ("description", .str "Merge or replace metadata keys. Rule: Max 5 keys, flat key-values only, no nested objects.")])]),
    ("required", .arr [.str "id"])])]

def memoryDeleteTool : Json := .obj [
  ("name", .str "memory-delete"),
  ("description", .str "Soft-delete a memory entry by its UUID."),
  ("inputSchema", .obj [
    ("type", .str "object"),
    ("properties", .obj [
      ("id", .obj [("type", .str "string"), ("format", .str "uuid"), ("description", .str "The UUID of the memory entry to perform a soft-delete on.")])]),
    ("required", .arr [.str "id"])])]

def memorySearchTool : Json := .obj [
  ("name", .str "memory-search"),
  ("description", .str "Search for memories with hierarchical resolution and filtering."),
  ("inputSchema", .obj [
    ("type", .str "object"),
    ("properties", .obj [
      ("query", .obj [("type", .str "string"), ("description", .str "The search query string. Use specific keywords to pinpoint relevant memories.")]),
      ("queries", .obj [("type", .str "array"), ("items", .obj [("type", .str "string")]), ("description", .str "Array of search queries or a single string queries. Used to perform multiple searches and merge results.")]),
      ("filters", .obj [
        ("type", .str "object"),
        ("properties", .obj [
          ("repository", .obj [("type", .str "string"), ("description", .str "The specific repository to restrict the search to. Omit to search across all accessible repositories.")]),
          ("memory_type", .obj [("type", .str "string"), ("enum", .arr memoryTypeEnum), ("description", .str "Filter by a specific memory category (e.g., \"business_rule\" for logic, \"system_constraint\" for immutable rules).")]),
          ("status", .obj [("type", .str "string"), ("enum", .arr statusEnum), ("description", .str "Filter by memory status (e.g., \"active\" for current knowledge, \"draft\" for works in progress).")]),
          ("scope_type", .obj [("type", .str "string"), ("enum", .arr scopeTypeEnum), ("description", .str "Filter by scope (e.g., \"system\" for global rules, \"organization\" for team knowledge).")]),
          ("metadata", .obj [("type", .str "object"), ("description", .str "A JSON object to match against strict key-value pairs in the metadata column. Useful for tag-based filtering.")])]),
        ("description", .str "Optional filters to narrow down the search results.")])])])]

def memoryLinkTool : Json := .obj [
  ("name", .str "memory-link"),
  ("description", .str "Create a relationship between two existing memories (Knowledge Graph)."),
  ("inputSchema", .obj [
    ("type", .str "object"),
    ("properties", .obj [
      ("source_id", .obj [("type", .str "string"), ("format", .str "uuid"), ("description", .str "The UUID of the source memory (the starting point of the relationship).")]),
      ("target_id", .obj [("type", .str "string"), ("format", .str "uuid"), ("description", .str "The UUID of the target memory (the endpoint of the relationship).")]),
      ("relation_type", .obj [("type", .str "string"), ("enum", .arr [.str "related", .str "conflicts", .str "supports"]), ("default", .str "related"), ("description", .str "The nature of the relationship: \"related\" (neutral connection), \"conflicts\" (contradictory info), or \"supports\" (strengthens validation).")])]),
    ("required", .arr [.str "source_id", .str "target_id"])])]

def memoryBulkWriteTool : Json := .obj [
  ("name", .str "memory-bulk-write"),
  ("description", .str "Create or update multiple memory entries in a single batch."),
  ("inputSchema", .obj [
    ("type", .str "object"),
    ("properties", .obj [
      ("items", .obj [
        ("type", .str "array"),
        ("items", .obj [
          ("type", .str "object"),
          ("properties", .obj [
            ("id", .obj [("type", .str "string"), ("format", .str "uuid"), ("description", .str "UUID for updating an existing memory. Omit for creating a new one.")]),
            ("organization", .obj [("type", .str "string"), ("description", .str "The organization slug (required for new memories).")]),
            ("repository", .obj [("type", .str "string"), ("description", .str "The repository slug to associate with the memory.")]),
            ("scope_type", .obj [("type", .str "string"), ("enum", .arr scopeTypeEnum), ("description", .str "Visibility: \"system\", \"organization\", or \"user\".")]),
            ("memory_type", .obj [("type", .str "string"), ("enum", .arr memoryTypeEnum), ("description", .str "Type: \"business_rule\", \"fact\", \"preference\", etc.")]),
            ("title", .obj [("type", .str "string"), ("description", .str "A short, descriptive title.")]),
            ("current_content", .obj [("type", .str "string"), ("description", .str "The main content of the memory.")]),
            ("status", .obj [("type", .str "string"), ("enum", .arr statusEnum), ("description", .str "Status: \"draft\", \"active\", \"archived\".")]),
            ("importance", .obj [("type", .str "number"), ("minimum", .num 1), ("maximum", .num 10), ("description", .str "Priority level (1-10).")]),
            ("metadata", .obj [("type", .str "object"), ("description", .str "Custom key-value pairs.")])]),
          ("required", .arr [.str "current_content"]),
          ("description", .str "A memory object to create or update.")]),
        ("description", .str "List of memory objects to process in batch.")])]),
    ("required", .arr [.str "items"])])]

def memoryVectorSearchTool : Json := .obj [
  ("name", .str "memory-vector-search"),
  ("description", .str "Semantic search using vector embeddings. The client must provide the vector."),
  ("inputSchema", .obj [
    ("type", .str "object"),
    ("properties", .obj [
      ("vector", .obj [("type", .str "array"), ("items", .obj [("type", .str "number")]), ("description", .str "The 1536-dimensional embedding vector representing the search query.")]),
      ("repository", .obj [("type", .str "string"), ("description", .str "Limit search to a specific repository slug for context isolation.")]),
      ("threshold", .obj [("type", .str "number"), ("default", .num 0.5), ("description", .str "Similarity threshold (0.0 to 1.0). Higher values return closer matches but fewer results.")]),
      ("filters", .obj [("type", .str "object"), ("description", .str "Structured filters to refine results (e.g., \x7b\"status\": \"active\"\x7d).")])]),
    ("required", .arr [.str "vector"])])]

def memoryAuditTool : Json := .obj [
  ("name", .str "memory-audit"),
  ("description", .str "Retrieve version history and audit logs for a memory."),
  ("inputSchema", .obj [
    ("type", .str "object"),
    ("properties", .obj [
      ("id", .obj [("type", .str "string"), ("format", .str "uuid"), ("description", .str "The UUID of the memory to fetch history for.")])]),
    ("required", .arr [.str "id"])])]

def memoryIndexTool : Json := .obj [
  ("name", .str "memory-index"),
  ("description", .str "Lightweight discovery index of recent memories (metadata-only)."),
  ("inputSchema", .obj [
    ("type", .str "object"),
    ("properties", .obj [])])]

def toolsList : List Json :=
  [memoryWriteTool, memoryUpdateTool, memoryDeleteTool, memorySearchTool,
   memoryLinkTool, memoryBulkWriteTool, memoryVectorSearchTool,
   memoryAuditTool, memoryIndexTool]

def resourcesList : List Json := [
  .obj [("uri", .str "memory://index"),
        ("title", .str "Memory Index (sample)"),
        ("description", .str "Sample lightweight index entry for discovery; real server returns dynamic results."),
        ("preview", .obj [("count", .num 10)])],
  .obj [("uri", .str "memory://123e4567-e89b-12d3-a456-426614174000"),
        ("title", .str "Example Memory (sample)"),
        ("description", .str "Example individual memory instance for local discovery and tests."),
        ("preview", .obj [("title", .str "Example Memory"), ("snippet", .str "This is a sample memory used for testing.")])],
  .obj [("uri", .str "docs://getting-started"),
        ("title", .str "Getting Started"),
        ("description", .str "Quickstart documentation for using the Memory MCP client and server."),
        ("preview", .obj [("slug", .str "getting-started")])],
  .obj [("uri", .str "schema://mcp"),
        ("title", .str "MCP Schema"),
        ("description", .str "Machine-readable schema describing tools, prompts and resources."),
        ("preview", .obj [("version", .str "1.0.0")])]]

def resourceTemplatesList : List Json := [
  .obj [("uriTemplate", .str "memory://index"),
        ("name", .str "Memory Index"),
        ("description", .str "Discovery endpoint listing recent memories. Returns a JSON array of lightweight objects for topic discovery and de-duplication. NEVER contains full content.")],
  .obj [("uriTemplate", .str "memory://{id}"),
        ("name", .str "Individual Memory"),
        ("description", .str "Read the full content and metadata of a specific memory entry.")],
  .obj [("uriTemplate", .str "memory://{id}/history"),
        ("name", .str "Memory Version History"),
        ("description", .str "Retrieve full version history and audit logs for a memory. Useful for debugging or understanding how a memory evolved.")],
  .obj [("uriTemplate", .str "docs://{slug}"),
        ("name", .str "MCP Documentation"),
        ("description", .str "Essential documentation for using this MCP server correctly.")],
  .obj [("uriTemplate", .str "schema://mcp"),
        ("name", .str "MCP Schema"),
        ("description", .str "Schema endpoint exposing resource/tool/prompt schemas for clients and validators.")]]

/-! ## Line handler (memory-mcp.js lines 346–515) -/

/-- `CAPABILITIES.result.prompts.find(p => p.name === name)`. -/
def findPrompt (name : Option Json) : Option Json :=
  promptsList.find? (fun p => jsStrictEqU (p.getOpt "name") name)

/-- `CAPABILITIES.result.resources.find(r => r.uri === uri)`. -/
def findResource (uri : Option Json) : Option Json :=
  resourcesList.find? (fun r => jsStrictEqU (r.getOpt "uri") uri)

/-- Response to `initialize`:
`{jsonrpc, id: msg.id, result: {capabilities, serverInfo, protocolVersion}}`. -/
def initializeResponse (id : Option Json) : Json :=
  .obj (("jsonrpc", .str "2.0") :: idField id ++
    [("result", .obj [
      ("capabilities", capabilitiesObj),
      ("serverInfo", serverInfoObj),
      ("protocolVersion", .str "2024-11-05")])])

/-- The follow-up `{jsonrpc, method: "notifications/initialized", params: {}}` line. -/
def initializedNotification : Json :=
  .obj [("jsonrpc", .str "2.0"),
        ("method", .str "notifications/initialized"),
        ("params", .obj [])]

/-- The default arm: `const { method, params, id } = msg;
await forwardToMCP(method, params, id);` (destructuring a non-object
non-null value yields `undefined` fields). -/
def forwardDefault (env : Env) (outcome : FetchOutcome) (msg : Json) : List Event :=
  forwardToMCP env outcome (msg.getOpt "method") (msg.getOpt "params") (msg.getOpt "id")

/-- Dispatch on one parsed inbound message (the body of the `try` block,
lines 352–511).  A parsed `null` makes `msg.method` throw; the enclosing
`catch` prints the diagnostic and emits nothing, exactly as for a line
that failed `JSON.parse`.  In the source, `prompts/get` and
`resources/read` with no static match fall through past the remaining
(never-matching) method tests to the final forwarding arm; here that
fall-through is written as a direct call to `forwardDefault`. -/
def dispatch (env : Env) (outcome : FetchOutcome) (msg : Json) : List Event :=
  if msg.isNull then
    [.errLine ("Parse error: " ++ NULL_METHOD_READ_MSG)]
  else if jsStrictEqU (msg.getOpt "method") (some (.str "initialize")) then
    [.out (initializeResponse (msg.getOpt "id")), .out initializedNotification]
  else if jsStrictEqU (msg.getOpt "method") (some (.str "notifications/initialized")) then
    []
  else if jsStrictEqU (msg.getOpt "method") (some (.str "tools/list")) then
    [.out (resultEnvelope (msg.getOpt "id") (.obj [("tools", .arr toolsList)]))]
  else if jsStrictEqU (msg.getOpt "method") (some (.str "resources/templates/list")) then
    [.out (resultEnvelope (msg.getOpt "id") (.obj [("resourceTemplates", .arr resourceTemplatesList)]))]
  else if jsStrictEqU (msg.getOpt "method") (some (.str "prompts/list")) then
    [.out (resultEnvelope (msg.getOpt "id") (.obj [("prompts", .arr promptsList)]))]
  else if jsStrictEqU (msg.getOpt "method") (some (.str "prompts/get")) then
    match findPrompt (jsAndField (msg.getOpt "params") "name") with
    | some prompt => [.out (resultEnvelope (msg.getOpt "id") (.obj [("prompt", prompt)]))]
    | none => forwardDefault env outcome msg
  else if jsStrictEqU (msg.getOpt "method") (some (.str "resources/list")) then
    [.out (resultEnvelope (msg.getOpt "id") (.obj [("resources", .arr resourcesList)]))]
  else if jsStrictEqU (msg.getOpt "method") (some (.str "resources/read")) then
    match findResource (jsAndField (msg.getOpt "params") "uri") with
    | some resource => [.out (resultEnvelope (msg.getOpt "id") (.obj [("resource", resource)]))]
    | none => forwardDefault env outcome msg
  else
    forwardDefault env outcome msg

/-- The guard `if (!line.trim()) return;`: `line.trim()` is the empty
string (falsy) exactly when every character of the line is whitespace. -/
def isBlankLine (line : String) : Bool :=
  line.data.all Char.isWhitespace

/-- `rl.on("line", ...)`: the blank-line guard, then `JSON.parse` whose
outcome (value, or exception message) is the `parsed` input, then
dispatch; a `JSON.parse` exception reaches the `catch`, which writes
`Parse error: <message>` to stderr and nothing to stdout. -/
def handleLine (env : Env) (outcome : FetchOutcome) (line : String)
    (parsed : Except String Json) : List Event :=
  if isBlankLine line then []
  else
    match parsed with
    | .error e => [.errLine ("Parse error: " ++ e)]
    | .ok msg => dispatch env outcome msg

/-- A parsed message reaches the forwarding arm iff it is not `null` and
matches none of the locally terminated method tests (for `prompts/get` /
`resources/read`, no static match exists). -/
def isForwarded (msg : Json) : Bool :=
  !msg.isNull &&
  !(jsStrictEqU (msg.getOpt "method") (some (.str "initialize"))) &&
  !(jsStrictEqU (msg.getOpt "method") (some (.str "notifications/initialized"))) &&
  !(jsStrictEqU (msg.getOpt "method") (some (.str "tools/list"))) &&
  !(jsStrictEqU (msg.getOpt "method") (some (.str "resources/templates/list"))) &&
  !(jsStrictEqU (msg.getOpt "method") (some (.str "prompts/list"))) &&
  (!(jsStrictEqU (msg.getOpt "method") (some (.str "prompts/get"))) ||
    (findPrompt (jsAndField (msg.getOpt "params") "name")).isNone) &&
  !(jsStrictEqU (msg.getOpt "method") (some (.str "resources/list"))) &&
  (!(jsStrictEqU (msg.getOpt "method") (some (.str "resources/read"))) ||
    (findResource (jsAndField (msg.getOpt "params") "uri")).isNone)

/-- The tool names advertised by a `tools/list` response envelope:
the `name` string of each entry of `result.tools`. -/
def responseToolNames (j : Json) : List String :=
  match (j.getOpt "result").bind (fun r => r.getOpt "tools") with
  | some (.arr ts) =>
      ts.filterMap (fun t =>
        match t.getOpt "name" with
        | some (.str s) => some s
        | _ => none)
  | _ => []

/-! ## Helper lemmas -/

theorem jsStrictEqU_str_str (a b : String) :
    jsStrictEqU (some (.str a)) (some (.str b)) = (a == b) := rfl

theorem jsStrictEqU_eq_some_str {v : Option Json} {s : String}
    (h : jsStrictEqU v (some (.str s)) = true) : v = some (.str s) := by
  cases v with
  | none => simp [jsStrictEqU] at h
  | some j => cases j <;> simp_all [jsStrictEqU, jsStrictEq]

theorem Json.isNull_false_of_getOpt {msg : Json} {k : String} {x : Json}
    (h : msg.getOpt k = some x) : msg.isNull = false := by
  cases msg <;> simp_all [Json.getOpt, Json.isNull]

theorem initializeResponse_id (i : Option Json) :
    (initializeResponse i).getOpt "id" = i := by
  cases i <;> rfl

theorem resultEnvelope_result (i : Option Json) (r : Json) :
    (resultEnvelope i r).getOpt "result" = some r := by
  cases i <;> rfl

/-! ## Claim theorems -/

/-- Claim C3 (confirmed): for every `initialize` request — under any
environment, credential present or not — the adapter emits the response
whose `id` equals the request's `id` and whose `result.protocolVersion`
is `"2024-11-05"`, followed strictly after by exactly one
`notifications/initialized` notification line, with no backend call. -/
theorem initialize_handshake (env : Env) (outcome : FetchOutcome) (msg : Json)
    (h : jsStrictEqU (msg.getOpt "method") (some (.str "initialize")) = true) :
    dispatch env outcome msg =
      [.out (initializeResponse (msg.getOpt "id")), .out initializedNotification] ∧
    (initializeResponse (msg.getOpt "id")).getOpt "id" = msg.getOpt "id" ∧
    ((initializeResponse (msg.getOpt "id")).getOpt "result").bind
      (fun r => r.getOpt "protocolVersion") = some (.str "2024-11-05") ∧
    initializedNotification.getOpt "method" = some (.str "notifications/initialized") ∧
    netOf (dispatch env outcome msg) = [] := by
  have hm := jsStrictEqU_eq_some_str h
  have hn := Json.isNull_false_of_getOpt hm
  have hd : dispatch env outcome msg =
      [.out (initializeResponse (msg.getOpt "id")), .out initializedNotification] := by
    simp [dispatch, hn, hm, jsStrictEqU_str_str]
  refine ⟨hd, initializeResponse_id _, ?_, rfl, ?_⟩
  · cases hi : msg.getOpt "id" <;> rfl
  · rw [hd]; rfl

/-- Witness for C3 at `{"jsonrpc":"2.0","method":"initialize","id":1}`
with no credential set. -/
theorem initialize_handshake_witness :
    dispatch ⟨none, none⟩ (.thrown "unused")
      (.obj [("jsonrpc", .str "2.0"), ("method", .str "initialize"), ("id", .num 1)]) =
      [.out (initializeResponse (some (.num 1))), .out initializedNotification] :=
  (initialize_handshake ⟨none, none⟩ (.thrown "unused")
    (.obj [("jsonrpc", .str "2.0"), ("method", .str "initialize"), ("id", .num 1)])
    (by rfl)).1

/-- Claim C9 (confirmed): a non-blank inbound line that fails `JSON.parse`
yields exactly one stderr diagnostic and nothing on stdout (and the
handler returns normally — it is a total function). -/
theorem malformed_line_diagnostic_only (env : Env) (outcome : FetchOutcome)
    (line e : String) (h : isBlankLine line = false) :
    handleLine env outcome line (.error e) = [.errLine ("Parse error: " ++ e)] ∧
    stdoutOf (handleLine env outcome line (.error e)) = [] := by
  have hl : handleLine env outcome line (.error e) =
      [.errLine ("Parse error: " ++ e)] := by
    simp [handleLine, h]
  exact ⟨hl, by rw [hl]; rfl⟩

/-- Witness for C9 at the non-JSON line `not json`. -/
theorem malformed_line_diagnostic_only_witness :
    handleLine ⟨none, some "tok"⟩ (.thrown "unused") "not json"
        (.error "Unexpected token o in JSON at position 1") =
      [.errLine ("Parse error: " ++ "Unexpected token o in JSON at position 1")] :=
  (malformed_line_diagnostic_only ⟨none, some "tok"⟩ (.thrown "unused")
    "not json" "Unexpected token o in JSON at position 1" (by rfl)).1

/-- Claim C10 (confirmed): a blank or all-whitespace inbound line produces
no effect at all — no stdout line, no stderr diagnostic, no network call. -/
theorem blank_line_no_output (env : Env) (outcome : FetchOutcome)
    (line : String) (parsed : Except String Json)
    (h : isBlankLine line = true) :
    handleLine env outcome line parsed = [] := by
  simp [handleLine, h]

/-- Witness for C10 at the line of three spaces. -/
theorem blank_line_no_output_witness :
    handleLine ⟨none, none⟩ (.thrown "unused") "   " (.error "x") = [] :=
  blank_line_no_output ⟨none, none⟩ (.thrown "unused") "   " (.error "x") (by rfl)

/-- Claim C4 (confirmed): with the credential present, a backend body that
parses to an envelope whose `jsonrpc` tag strictly equals `"2.0"` and
whose `id` strictly equals the outbound `id` is re-emitted as the single
output line, exactly the parsed object — so its re-serialization is
byte-for-byte the serialization of the backend envelope, with the
`result`/`error` payload untouched. -/
theorem verbatim_relay (env : Env) (method params id : Option Json) (data : Json)
    (htok : tokenMissing env.MCP_MEMORY_TOKEN = false)
    (hv : jsStrictEqU (data.getOpt "jsonrpc") (some (.str "2.0")) = true)
    (hid : jsStrictEqU (data.getOpt "id") id = true) :
    forwardToMCP env (.replied (.valid data)) method params id =
      [.net ⟨resolveUrl env.MCP_MEMORY_URL, method, params, id⟩, .out data] := by
  have hn : data.isNull = false := by
    cases data <;> simp_all [Json.getOpt, Json.isNull, jsStrictEqU]
  simp [forwardToMCP, htok, hn, hv, hid]

/-- Witness for C4: the backend returns
`{"jsonrpc":"2.0","id":9,"error":{"code":-32600,"message":"Invalid Request"}}`
and the adapter's only stdout line is that same envelope. -/
theorem verbatim_relay_witness :
    forwardToMCP ⟨none, some "tok"⟩
      (.replied (.valid (.obj [("jsonrpc", .str "2.0"), ("id", .num 9),
        ("error", .obj [("code", .num (-32600)), ("message", .str "Invalid Request")])])))
      (some (.str "tools/call")) (some (.obj [])) (some (.num 9)) =
      [.net ⟨DEFAULT_URL, some (.str "tools/call"), some (.obj []), some (.num 9)⟩,
       .out (.obj [("jsonrpc", .str "2.0"), ("id", .num 9),
        ("error", .obj [("code", .num (-32600)), ("message", .str "Invalid Request")])])] :=
  verbatim_relay ⟨none, some "tok"⟩ (some (.str "tools/call")) (some (.obj []))
    (some (.num 9))
    (.obj [("jsonrpc", .str "2.0"), ("id", .num 9),
      ("error", .obj [("code", .num (-32600)), ("message", .str "Invalid Request")])])
    (by rfl) (by rfl) (by rfl)

/-- Claim C7 (confirmed): with the credential present, a backend body that
fails to parse yields exactly one −32700 "Parse error" envelope carrying
the inbound `id` (after one POST and a stderr preview of the raw body),
and a transport-level exception yields exactly one −32603 envelope whose
message names the cause, again with the inbound `id`. -/
theorem backend_parse_and_transport_errors :
    (∀ (env : Env) (method params id : Option Json) (raw : String),
      tokenMissing env.MCP_MEMORY_TOKEN = false →
      forwardToMCP env (.replied (.invalid raw)) method params id =
        [.net ⟨resolveUrl env.MCP_MEMORY_URL, method, params, id⟩,
         .errLine ("Failed to parse remote response: " ++ raw.take 500),
         .out (errorEnvelope id (-32700) "Parse error: Invalid JSON from server")]) ∧
    (∀ (env : Env) (method params id : Option Json) (cause : String),
      tokenMissing env.MCP_MEMORY_TOKEN = false →
      forwardToMCP env (.thrown cause) method params id =
        [.net ⟨resolveUrl env.MCP_MEMORY_URL, method, params, id⟩,
         .errLine ("Forwarding failed: " ++ cause),
         .out (errorEnvelope id (-32603) ("Internal error: " ++ cause))]) := by
  constructor <;> · intro env method params id s htok; simp [forwardToMCP, htok]

/-- Witness for C7: both failure arms at concrete inputs (body `<html>` that
is not JSON; a refused connection). -/
theorem backend_parse_and_transport_errors_witness :
    forwardToMCP ⟨none, some "tok"⟩ (.replied (.invalid "<html>"))
      (some (.str "tools/call")) none (some (.num 4)) =
      [.net ⟨DEFAULT_URL, some (.str "tools/call"), none, some (.num 4)⟩,
       .errLine ("Failed to parse remote response: " ++ ("<html>" : String).take 500),
       .out (errorEnvelope (some (.num 4)) (-32700) "Parse error: Invalid JSON from server")] ∧
    forwardToMCP ⟨none, some "tok"⟩ (.thrown "connect ECONNREFUSED")
      (some (.str "tools/call")) none (some (.num 5)) =
      [.net ⟨DEFAULT_URL, some (.str "tools/call"), none, some (.num 5)⟩,
       .errLine ("Forwarding failed: " ++ "connect ECONNREFUSED"),
       .out (errorEnvelope (some (.num 5)) (-32603)
         ("Internal error: " ++ "connect ECONNREFUSED"))] :=
  ⟨backend_parse_and_transport_errors.1 ⟨none, some "tok"⟩
      (some (.str "tools/call")) none (some (.num 4)) "<html>" (by rfl),
   backend_parse_and_transport_errors.2 ⟨none, some "tok"⟩
      (some (.str "tools/call")) none (some (.num 5)) "connect ECONNREFUSED" (by rfl)⟩

/-- Counterexample for C6: with the credential present and a backend body
of exactly `null` — which parses as JSON but lacks the envelope shape —
the adapter does NOT emit a synthesized success envelope wrapping the
parsed payload: the single output line is a −32603 error envelope with no
`result` field (the `data.jsonrpc` access throws on `null` and lands in
the generic catch), so the backend's data is dropped. -/
theorem null_body_not_wrapped :
    stdoutOf (forwardToMCP ⟨none, some "tok"⟩ (.replied (.valid .null))
        (some (.str "tools/call")) none (some (.num 7))) =
      [errorEnvelope (some (.num 7)) (-32603)
        ("Internal error: " ++ NULL_JSONRPC_READ_MSG)] ∧
    (errorEnvelope (some (.num 7)) (-32603)
        ("Internal error: " ++ NULL_JSONRPC_READ_MSG)).getOpt "result" = none ∧
    stdoutOf (forwardToMCP ⟨none, some "tok"⟩ (.replied (.valid .null))
        (some (.str "tools/call")) none (some (.num 7))) ≠
      [resultEnvelope (some (.num 7)) .null] := by
  refine ⟨rfl, rfl, ?_⟩
  intro h
  rw [show stdoutOf (forwardToMCP ⟨none, some "tok"⟩ (.replied (.valid .null))
        (some (.str "tools/call")) none (some (.num 7))) =
      [errorEnvelope (some (.num 7)) (-32603)
        ("Internal error: " ++ NULL_JSONRPC_READ_MSG)] from rfl] at h
  simp [errorEnvelope, resultEnvelope, idField] at h

/-- Claim C6 (corrected): with the credential present, a backend body that
parses to any JSON value other than `null` and lacks the expected
envelope shape (no strict `"2.0"` tag, or an `id` differing from the
outbound one) is wrapped unchanged as the `result` of a synthesized
success envelope carrying the original inbound `id`; a body of exactly
`null`, however, produces a −32603 error envelope instead (see
`null_body_not_wrapped`). -/
theorem nonconformant_body_wrapped (env : Env) (method params id : Option Json)
    (data : Json)
    (htok : tokenMissing env.MCP_MEMORY_TOKEN = false)
    (hnn : data.isNull = false)
    (henv : (jsStrictEqU (data.getOpt "jsonrpc") (some (.str "2.0")) &&
             jsStrictEqU (data.getOpt "id") id) = false) :
    forwardToMCP env (.replied (.valid data)) method params id =
      [.net ⟨resolveUrl env.MCP_MEMORY_URL, method, params, id⟩,
       .errLine "Server response missing JSON-RPC envelope",
       .out (resultEnvelope id data)] := by
  simp [forwardToMCP, htok, hnn, henv]

/-- Witness for the amended C6: a bare payload `{"hello":"world"}` with no
envelope is wrapped as the `result` of a success envelope with the
inbound id `2`. -/
theorem nonconformant_body_wrapped_witness :
    forwardToMCP ⟨none, some "tok"⟩
      (.replied (.valid (.obj [("hello", .str "world")])))
      (some (.str "tools/call")) none (some (.num 2)) =
      [.net ⟨DEFAULT_URL, some (.str "tools/call"), none, some (.num 2)⟩,
       .errLine "Server response missing JSON-RPC envelope",
       .out (resultEnvelope (some (.num 2)) (.obj [("hello", .str "world")]))] :=
  nonconformant_body_wrapped ⟨none, some "tok"⟩ (some (.str "tools/call")) none
    (some (.num 2)) (.obj [("hello", .str "world")]) (by rfl) (by rfl) (by rfl)

/-- Claim C2 (confirmed): when the bearer token is missing (unset or
empty) and the inbound message reaches the forwarding arm, the trace is
exactly one fatal stderr diagnostic followed by one stdout line: a
JSON-RPC error envelope with the inbound `id`, code −32000 and the
missing-credential message — and no network call. -/
theorem missing_token_fail_fast (env : Env) (outcome : FetchOutcome) (msg : Json)
    (htok : tokenMissing env.MCP_MEMORY_TOKEN = true)
    (hf : isForwarded msg = true) :
    dispatch env outcome msg =
      [.errLine "FATAL: MCP_MEMORY_TOKEN is missing in environment",
       .out (errorEnvelope (msg.getOpt "id") (-32000)
         "MCP_MEMORY_TOKEN is required but missing from environment")] := by
  simp only [isForwarded, Bool.and_eq_true, Bool.not_eq_true',
    Bool.or_eq_true, Option.isNone_iff_eq_none] at hf
  obtain ⟨⟨⟨⟨⟨⟨⟨⟨hn, h1⟩, h2⟩, h3⟩, h4⟩, h5⟩, hp⟩, h7⟩, hr⟩ := hf
  rcases hp with hp | hp <;> rcases hr with hr | hr <;>
    simp [dispatch, forwardDefault, forwardToMCP, hn, h1, h2, h3, h4, h5, h7,
      hp, hr, htok]

/-- Witness for C2: `tools/call` with id 3 and no token set. -/
theorem missing_token_fail_fast_witness :
    dispatch ⟨none, none⟩ (.thrown "unused")
      (.obj [("jsonrpc", .str "2.0"), ("method", .str "tools/call"),
             ("params", .obj [("name", .str "memory-search")]), ("id", .num 3)]) =
      [.errLine "FATAL: MCP_MEMORY_TOKEN is missing in environment",
       .out (errorEnvelope (some (.num 3)) (-32000)
         "MCP_MEMORY_TOKEN is required but missing from environment")] :=
  missing_token_fail_fast ⟨none, none⟩ (.thrown "unused")
    (.obj [("jsonrpc", .str "2.0"), ("method", .str "tools/call"),
           ("params", .obj [("name", .str "memory-search")]), ("id", .num 3)])
    (by rfl) (by rfl)

/-- Counterexample for C5: an inbound message with NO `id` and method
`tools/list` — a notification, and not the initialize handshake — makes
the adapter emit a response line (an envelope without an `id` field), so
it is false that every non-handshake notification produces no output. -/
theorem idless_request_emits_output :
    dispatch ⟨none, none⟩ (.thrown "unused")
        (.obj [("jsonrpc", .str "2.0"), ("method", .str "tools/list")]) =
      [.out (resultEnvelope none (.obj [("tools", .arr toolsList)]))] ∧
    stdoutOf (dispatch ⟨none, none⟩ (.thrown "unused")
        (.obj [("jsonrpc", .str "2.0"), ("method", .str "tools/list")])) ≠ [] := by
  refine ⟨rfl, ?_⟩
  intro h
  rw [show stdoutOf (dispatch ⟨none, none⟩ (.thrown "unused")
      (.obj [("jsonrpc", .str "2.0"), ("method", .str "tools/list")])) =
      [resultEnvelope none (.obj [("tools", .arr toolsList)])] from rfl] at h
  exact List.cons_ne_nil _ _ h

theorem errorEnvelope_idless (c : ℚ) (m : String) :
    (errorEnvelope none c m).getOpt "id" = none := rfl

theorem resultEnvelope_idless (r : Json) :
    (resultEnvelope none r).getOpt "id" = none := rfl

/-- Any message that satisfies `isForwarded` reaches the final forwarding
arm: dispatch equals the gateway call on the message's own fields. -/
theorem dispatch_eq_forwardDefault (env : Env) (outcome : FetchOutcome)
    (msg : Json) (hf : isForwarded msg = true) :
    dispatch env outcome msg = forwardDefault env outcome msg := by
  simp only [isForwarded, Bool.and_eq_true, Bool.not_eq_true',
    Bool.or_eq_true, Option.isNone_iff_eq_none] at hf
  obtain ⟨⟨⟨⟨⟨⟨⟨⟨hn, h1⟩, h2⟩, h3⟩, h4⟩, h5⟩, hp⟩, h7⟩, hr⟩ := hf
  rcases hp with hp | hp <;> rcases hr with hr | hr <;>
    simp [dispatch, hn, h1, h2, h3, h4, h5, h7, hp, hr]

/-- Every gateway call made on behalf of an id-less message (`id`
destructured to `undefined`) writes exactly one stdout line, and that
envelope carries no `id` field — in the relay branch because the match
`data.id === undefined` forces the backend object to lack an `id`. -/
theorem forwardToMCP_stdout_idless (env : Env) (outcome : FetchOutcome)
    (method params : Option Json) :
    (stdoutOf (forwardToMCP env outcome method params none)).length = 1 ∧
    ∀ j ∈ stdoutOf (forwardToMCP env outcome method params none),
      j.getOpt "id" = none := by
  unfold forwardToMCP
  split
  · simp [stdoutOf, errorEnvelope_idless]
  · rcases outcome with m | body
    · simp [stdoutOf, errorEnvelope_idless]
    · rcases body with raw | data
      · simp [stdoutOf, errorEnvelope_idless]
      · by_cases hnl : data.isNull = true
        · simp [stdoutOf, hnl, errorEnvelope_idless]
        · rw [Bool.not_eq_true] at hnl
          simp only [hnl, Bool.false_eq_true, if_false]
          by_cases hc : (jsStrictEqU (data.getOpt "jsonrpc") (some (.str "2.0")) &&
              jsStrictEqU (data.getOpt "id") none) = true
          · obtain ⟨hj, h2⟩ := (Bool.and_eq_true _ _).mp hc
            have hid : data.getOpt "id" = none := by
              cases hdi : data.getOpt "id" with
              | none => rfl
              | some v => rw [hdi] at h2; simp [jsStrictEqU] at h2
            have hnn : jsStrictEqU none none = true := rfl
            simp [stdoutOf, hj, hid, hnn]
          · rw [Bool.not_eq_true] at hc
            simp [stdoutOf, hc, resultEnvelope_idless]

/-- Claim C5 (corrected): an inbound `notifications/initialized` message
produces no output at all; other id-less messages are NOT exempt — any
id-less message that reaches the forwarding arm produces exactly one
output line, an envelope carrying no `id` field, and an id-less
`tools/list` is answered with a response envelope without an `id` field. -/
theorem notifications_initialized_silent :
    (∀ (env : Env) (outcome : FetchOutcome) (msg : Json),
      jsStrictEqU (msg.getOpt "method") (some (.str "notifications/initialized")) = true →
      dispatch env outcome msg = []) ∧
    (∀ (env : Env) (outcome : FetchOutcome) (msg : Json),
      isForwarded msg = true → msg.getOpt "id" = none →
      (stdoutOf (dispatch env outcome msg)).length = 1 ∧
      ∀ j ∈ stdoutOf (dispatch env outcome msg), j.getOpt "id" = none) ∧
    (∀ (env : Env) (outcome : FetchOutcome),
      dispatch env outcome
          (.obj [("jsonrpc", .str "2.0"), ("method", .str "tools/list")]) =
        [.out (resultEnvelope none (.obj [("tools", .arr toolsList)]))]) := by
  refine ⟨?_, ?_, ?_⟩
  · intro env outcome msg h
    have hm := jsStrictEqU_eq_some_str h
    have hn := Json.isNull_false_of_getOpt hm
    simp [dispatch, hn, hm, jsStrictEqU_str_str]
  · intro env outcome msg hf hid
    rw [dispatch_eq_forwardDefault env outcome msg hf]
    unfold forwardDefault
    rw [hid]
    exact forwardToMCP_stdout_idless env outcome (msg.getOpt "method")
      (msg.getOpt "params")
  · intro env outcome
    rfl

/-- Witness for the amended C5: an inbound
`{"jsonrpc":"2.0","method":"notifications/initialized"}` produces
nothing, while the id-less notification
`{"jsonrpc":"2.0","method":"notifications/cancelled"}` reaches the
gateway and yields exactly one output line. -/
theorem notifications_initialized_silent_witness :
    dispatch ⟨none, none⟩ (.thrown "unused")
      (.obj [("jsonrpc", .str "2.0"), ("method", .str "notifications/initialized")]) = [] ∧
    (stdoutOf (dispatch ⟨none, none⟩ (.thrown "unused")
      (.obj [("jsonrpc", .str "2.0"), ("method", .str "notifications/cancelled")]))).length = 1 :=
  ⟨notifications_initialized_silent.1 ⟨none, none⟩ (.thrown "unused")
    (.obj [("jsonrpc", .str "2.0"), ("method", .str "notifications/initialized")])
    (by rfl),
   (notifications_initialized_silent.2.1 ⟨none, none⟩ (.thrown "unused")
    (.obj [("jsonrpc", .str "2.0"), ("method", .str "notifications/cancelled")])
    (by rfl) (by rfl)).1⟩

/-- Every gateway invocation performs at most one outbound POST, and any
POST it performs carries the delegated `method`, `params` and `id`. -/
theorem forwardToMCP_net_bound (env : Env) (outcome : FetchOutcome)
    (method params id : Option Json) :
    (netOf (forwardToMCP env outcome method params id)).length ≤ 1 ∧
    ∀ c ∈ netOf (forwardToMCP env outcome method params id),
      c.method = method ∧ c.params = params ∧ c.id = id := by
  unfold forwardToMCP
  split
  · simp [netOf]
  · rcases outcome with m | body
    · simp [netOf]
    · rcases body with raw | data
      · simp [netOf]
      · by_cases hnl : data.isNull = true
        · simp [netOf, hnl]
        · rw [Bool.not_eq_true] at hnl
          simp only [hnl, Bool.false_eq_true, if_false]
          split <;> simp [netOf]

/-- Claim C8 (confirmed): a `prompts/get` whose `name` matches a static
prompt, or a `resources/read` whose `uri` matches a static resource, is
answered locally with that entry and no backend call; with no static
match the request is delegated to the gateway with `method`, `params`
and `id` exactly as received, and any gateway invocation performs at
most one outbound POST, carrying exactly those fields. -/
theorem local_lookup_or_delegate :
    (∀ (env : Env) (outcome : FetchOutcome) (msg prompt : Json),
      jsStrictEqU (msg.getOpt "method") (some (.str "prompts/get")) = true →
      findPrompt (jsAndField (msg.getOpt "params") "name") = some prompt →
      dispatch env outcome msg =
        [.out (resultEnvelope (msg.getOpt "id") (.obj [("prompt", prompt)]))]) ∧
    (∀ (env : Env) (outcome : FetchOutcome) (msg : Json),
      jsStrictEqU (msg.getOpt "method") (some (.str "prompts/get")) = true →
      findPrompt (jsAndField (msg.getOpt "params") "name") = none →
      dispatch env outcome msg = forwardDefault env outcome msg) ∧
    (∀ (env : Env) (outcome : FetchOutcome) (msg resource : Json),
      jsStrictEqU (msg.getOpt "method") (some (.str "resources/read")) = true →
      findResource (jsAndField (msg.getOpt "params") "uri") = some resource →
      dispatch env outcome msg =
        [.out (resultEnvelope (msg.getOpt "id") (.obj [("resource", resource)]))]) ∧
    (∀ (env : Env) (outcome : FetchOutcome) (msg : Json),
      jsStrictEqU (msg.getOpt "method") (some (.str "resources/read")) = true →
      findResource (jsAndField (msg.getOpt "params") "uri") = none →
      dispatch env outcome msg = forwardDefault env outcome msg) ∧
    (∀ (env : Env) (outcome : FetchOutcome) (msg : Json),
      (netOf (forwardDefault env outcome msg)).length ≤ 1 ∧
      ∀ c ∈ netOf (forwardDefault env outcome msg),
        c.method = msg.getOpt "method" ∧ c.params = msg.getOpt "params" ∧
        c.id = msg.getOpt "id") := by
  refine ⟨?_, ?_, ?_, ?_, ?_⟩
  · intro env outcome msg prompt h hfind
    have hm := jsStrictEqU_eq_some_str h
    have hn := Json.isNull_false_of_getOpt hm
    simp [dispatch, hn, hm, jsStrictEqU_str_str, hfind]
  · intro env outcome msg h hfind
    have hm := jsStrictEqU_eq_some_str h
    have hn := Json.isNull_false_of_getOpt hm
    simp [dispatch, hn, hm, jsStrictEqU_str_str, hfind]
  · intro env outcome msg resource h hfind
    have hm := jsStrictEqU_eq_some_str h
    have hn := Json.isNull_false_of_getOpt hm
    simp [dispatch, hn, hm, jsStrictEqU_str_str, hfind]
  · intro env outcome msg h hfind
    have hm := jsStrictEqU_eq_some_str h
    have hn := Json.isNull_false_of_getOpt hm
    simp [dispatch, hn, hm, jsStrictEqU_str_str, hfind]
  · intro env outcome msg
    exact forwardToMCP_net_bound env outcome (msg.getOpt "method")
      (msg.getOpt "params") (msg.getOpt "id")

/-- Witness for C8: `prompts/get` of the static prompt `memory-agent-core`
is answered locally, and `prompts/get` of the unknown name `nope` is
delegated to the gateway unchanged. -/
theorem local_lookup_or_delegate_witness :
    dispatch ⟨none, some "tok"⟩ (.thrown "unused")
      (.obj [("jsonrpc", .str "2.0"), ("method", .str "prompts/get"),
             ("params", .obj [("name", .str "memory-agent-core")]), ("id", .num 6)]) =
      [.out (resultEnvelope (some (.num 6)) (.obj [("prompt",
        .obj [("name", .str "memory-agent-core"),
              ("description", .str "The core behavioral contract for all agents interacting with the Memory MCP.")])]))] ∧
    dispatch ⟨none, some "tok"⟩ (.thrown "unused")
      (.obj [("jsonrpc", .str "2.0"), ("method", .str "prompts/get"),
             ("params", .obj [("name", .str "nope")]), ("id", .num 8)]) =
      forwardDefault ⟨none, some "tok"⟩ (.thrown "unused")
        (.obj [("jsonrpc", .str "2.0"), ("method", .str "prompts/get"),
               ("params", .obj [("name", .str "nope")]), ("id", .num 8)]) :=
  ⟨local_lookup_or_delegate.1 ⟨none, some "tok"⟩ (.thrown "unused")
      (.obj [("jsonrpc", .str "2.0"), ("method", .str "prompts/get"),
             ("params", .obj [("name", .str "memory-agent-core")]), ("id", .num 6)])
      (.obj [("name", .str "memory-agent-core"),
             ("description", .str "The core behavioral contract for all agents interacting with the Memory MCP.")])
      (by rfl) (by rfl),
   local_lookup_or_delegate.2.1 ⟨none, some "tok"⟩ (.thrown "unused")
      (.obj [("jsonrpc", .str "2.0"), ("method", .str "prompts/get"),
             ("params", .obj [("name", .str "nope")]), ("id", .num 8)])
      (by rfl) (by rfl)⟩

/-- Counterexample for C1: the `tools/list` answer does not carry the
5-tool name set `{memory-write, memory-update, memory-delete,
memory-search, memory-link}` — it carries those five plus
`memory-bulk-write`, `memory-vector-search`, `memory-audit` and
`memory-index`, nine names in all. -/
theorem tools_list_not_five_tools :
    (stdoutOf (dispatch ⟨none, some "tok"⟩ (.thrown "unused")
        (.obj [("jsonrpc", .str "2.0"), ("method", .str "tools/list"),
               ("id", .num 1)]))).map responseToolNames =
      [["memory-write", "memory-update", "memory-delete", "memory-search",
        "memory-link", "memory-bulk-write", "memory-vector-search",
        "memory-audit", "memory-index"]] ∧
    ¬ ((stdoutOf (dispatch ⟨none, some "tok"⟩ (.thrown "unused")
        (.obj [("jsonrpc", .str "2.0"), ("method", .str "tools/list"),
               ("id", .num 1)]))).map responseToolNames =
      [["memory-write", "memory-update", "memory-delete", "memory-search",
        "memory-link"]]) := by
  refine ⟨rfl, ?_⟩
  intro h
  rw [show (stdoutOf (dispatch ⟨none, some "tok"⟩ (.thrown "unused")
      (.obj [("jsonrpc", .str "2.0"), ("method", .str "tools/list"),
             ("id", .num 1)]))).map responseToolNames =
      [["memory-write", "memory-update", "memory-delete", "memory-search",
        "memory-link", "memory-bulk-write", "memory-vector-search",
        "memory-audit", "memory-index"]] from rfl] at h
  simp at h

/-- Claim C1 (corrected): every `tools/list` request is answered locally
(no backend call) with the fixed static tool array — whose name set is
the NINE names `{memory-write, memory-update, memory-delete,
memory-search, memory-link, memory-bulk-write, memory-vector-search,
memory-audit, memory-index}`, no more and no less — and the schema shape
matches the static contract: `memory-write` requires exactly
`organization`, `scope_type`, `memory_type`, `current_content`, its
`scope_type` enum is the four scope values, and `id` and `importance`
are present as optional properties. -/
theorem tools_list_static (env : Env) (outcome : FetchOutcome) (msg : Json)
    (h : jsStrictEqU (msg.getOpt "method") (some (.str "tools/list")) = true) :
    dispatch env outcome msg =
      [.out (resultEnvelope (msg.getOpt "id") (.obj [("tools", .arr toolsList)]))] ∧
    toolsList.map (fun t => t.getOpt "name") =
      [some (.str "memory-write"), some (.str "memory-update"),
       some (.str "memory-delete"), some (.str "memory-search"),
       some (.str "memory-link"), some (.str "memory-bulk-write"),
       some (.str "memory-vector-search"), some (.str "memory-audit"),
       some (.str "memory-index")] ∧
    (memoryWriteTool.getOpt "inputSchema").bind (fun s => s.getOpt "required") =
      some (.arr [.str "organization", .str "scope_type", .str "memory_type",
                  .str "current_content"]) ∧
    (((memoryWriteTool.getOpt "inputSchema").bind (fun s => s.getOpt "properties")).bind
        (fun p => p.getOpt "scope_type")).bind (fun st => st.getOpt "enum") =
      some (.arr scopeTypeEnum) ∧
    (((memoryWriteTool.getOpt "inputSchema").bind (fun s => s.getOpt "properties")).bind
        (fun p => p.getOpt "id")).isSome = true ∧
    (((memoryWriteTool.getOpt "inputSchema").bind (fun s => s.getOpt "properties")).bind
        (fun p => p.getOpt "importance")).isSome = true := by
  have hm := jsStrictEqU_eq_some_str h
  have hn := Json.isNull_false_of_getOpt hm
  refine ⟨?_, rfl, rfl, rfl, rfl, rfl⟩
  simp [dispatch, hn, hm, jsStrictEqU_str_str]

/-- Witness for the amended C1 at `{"method":"tools/list","id":2}`. -/
theorem tools_list_static_witness :
    dispatch ⟨none, some "tok"⟩ (.thrown "unused")
      (.obj [("jsonrpc", .str "2.0"), ("method", .str "tools/list"), ("id", .num 2)]) =
      [.out (resultEnvelope (some (.num 2)) (.obj [("tools", .arr toolsList)]))] :=
  (tools_list_static ⟨none, some "tok"⟩ (.thrown "unused")
    (.obj [("jsonrpc", .str "2.0"), ("method", .str "tools/list"), ("id", .num 2)])
    (by rfl)).1
